import Mathlib

/-!
Verification of the BreachWatch crawl-orchestration core.

The definitions below are a shallow embedding of the Python source under
src/breachwatch_backend/breachwatch/, in particular:
  core/keyword_matcher.py   (match_keywords_in_text)
  core/file_identifier.py   (identify_file_type_and_name)
  core/downloader.py        (download_and_store_file)
  core/crawler.py           (DomainLimiter, MasterCrawler: robots cache,
                             process_url, start_crawling final-status logic,
                             FILE_TYPE_EXTENSIONS)
  storage/crud.py           (module surface, update_crawl_job_status)

Python strings are embedded as Lean String, byte strings as List Nat,
machine floats used only for time comparisons as rationals, Python dicts
as association lists, and Python exceptions as an explicit error type.
Network and HTML-parsing collaborators (httpx, BeautifulSoup) are
parameters of the embedding: an environment supplies, per URL, the fetch
outcome and the anchor hrefs that BeautifulSoup would report.
-/

namespace BreachWatch

/-! ## Python value and exception model -/

/-- Python exceptions that the embedded code can raise. -/
inductive PyError where
  | attributeError (objKind : String) (attr : String)
  | typeError (msg : String)
  deriving Repr, DecidableEq

/-- Attribute access on a plain Python dict object. Dict items are looked up
with subscription, never with attribute access, so for any plain dict and any
item key the expression d.attr raises AttributeError regardless of the keys
the dict holds. -/
def pyDictAttr (α : Type) (_d : List (String × α)) (attr : String) :
    Except PyError α :=
  .error (.attributeError "dict" attr)

/-- Calling the value of a str-valued property: a Python str object is not
callable, so for any string the call expression raises TypeError. This
embeds the expression response.text() at crawler.py line 232, where the
text member of an httpx response is a str property, not a coroutine method
(the coroutine reader aread is the one used at line 283). -/
def pyStrCall (_s : String) : Except PyError String :=
  .error (.typeError "str object is not callable")

/-- Python keyword-argument call check: calling a function whose positional
or keyword parameters are exactly accepted with a keyword argument outside
that list raises TypeError before the body runs. -/
def pyKwargCallCheck (accepted : List String) (passedKwargs : List String) :
    Except PyError Unit :=
  match passedKwargs.find? (fun k => !accepted.contains k) with
  | some bad => .error (.typeError ("unexpected keyword argument " ++ bad))
  | none => .ok ()

/-! ## ASCII string helpers shared by the embedded modules

Python str.lower on the ASCII inputs appearing in this development maps
only the letters A-Z; the word-character class of the re module on those
inputs is letters, digits and the underscore. -/

/-- Lower-case one character, ASCII range (mirrors Python str.lower on
ASCII input). -/
def lowerChar (c : Char) : Char :=
  if 'A' ≤ c ∧ c ≤ 'Z' then Char.ofNat (c.toNat + 32) else c

/-- Lower-case a character list. -/
def lowerL (s : List Char) : List Char := s.map lowerChar

/-- Word character in the sense of the re module word boundary on ASCII
text: letter, digit or underscore. -/
def isWordChar (c : Char) : Bool :=
  ('a' ≤ c ∧ c ≤ 'z') ∨ ('A' ≤ c ∧ c ≤ 'Z') ∨ ('0' ≤ c ∧ c ≤ '9') ∨ c = '_'

/-! ## core/keyword_matcher.py -/

/-- Whether position i of text t holds a word character. Out-of-range
positions count as non-word, as the re module treats string ends. -/
def wordAt (t : List Char) (i : Nat) : Bool :=
  match t.drop i with
  | [] => false
  | c :: _ => isWordChar c

/-- The re metacharacter backslash-b matches at position i of t when
exactly one of the neighbouring positions i-1 and i holds a word
character. -/
def boundaryAt (t : List Char) (i : Nat) : Bool :=
  (decide (0 < i) && wordAt t (i - 1)) != wordAt t i

/-- The escaped-literal pattern for keyword k, wrapped in word boundaries,
matches text t at position i. -/
def wholeWordMatchAt (t k : List Char) (i : Nat) : Bool :=
  ((t.drop i).take k.length == k) && boundaryAt t i && boundaryAt t (i + k.length)

/-- re.search of the word-bounded escaped literal k over t: some position
matches. -/
def reSearchWholeWord (t k : List Char) : Bool :=
  (List.range (t.length + 1)).any (fun i => wholeWordMatchAt t k i)

/-- Embedding of match_keywords_in_text (core/keyword_matcher.py lines
7-33): empty text or empty keyword list give the empty result; otherwise
the text is lowered once and each keyword is lowered, escaped and searched
with word boundaries on both sides; a matching keyword is reported in its
original casing. The matched keywords are returned in keyword-list order;
the Python function returns them as a set, so list membership here is set
membership there. The re.error skip branch is unreachable for escaped
literals and has no counterpart here. -/
def matchKeywordsInText (text : String) (keywords : List String) :
    List String :=
  if text.data.isEmpty || keywords.isEmpty then []
  else
    keywords.filter fun kw => reSearchWholeWord (lowerL text.data) (lowerL kw.data)

/-! ## Substring and URL helpers (urllib.parse on the URL shapes used here) -/

/-- The pattern occurs in t starting at position i. -/
def subAt (t pat : List Char) (i : Nat) : Bool :=
  (t.drop i).take pat.length == pat

/-- Python substring membership test, the in operator on str. -/
def containsSub (t pat : List Char) : Bool :=
  (List.range (t.length + 1)).any (subAt t pat)

/-- String version of substring membership. -/
def strContains (s pat : String) : Bool :=
  containsSub s.data pat.data

/-- First position at which the pattern occurs, if any. -/
def findSub (t pat : List Char) : Option Nat :=
  (List.range (t.length + 1)).find? (subAt t pat)

/-- Python str.startswith. -/
def strStarts (s pat : String) : Bool :=
  s.data.take pat.data.length == pat.data

/-- Lower-case a string, ASCII range. -/
def lowerStr (s : String) : String :=
  ⟨lowerL s.data⟩

/-- Result of urllib.parse.urlparse restricted to the components this code
reads: scheme, netloc, path (params kept inside it), query, fragment. -/
structure UrlParts where
  scheme : String
  netloc : String
  path : String
  query : String
  fragment : String
  deriving Repr, DecidableEq

/-- Embedding of urllib.parse.urlparse for the absolute http-style and plain
relative URL strings this code handles: the scheme is what precedes a
colon-slash-slash separator (lower-cased, as urlparse does), the netloc runs
to the first slash, question mark or hash, the fragment follows the first
hash, the query the first question mark before it, and a string without the
separator parses with empty scheme and netloc. -/
def parseUrl (s : String) : UrlParts :=
  let cs := s.data
  let sep := "://".data
  let (scheme, rest) :=
    match findSub cs sep with
    | some i => (lowerL (cs.take i), cs.drop (i + sep.length))
    | none => ([], cs)
  let hasSep := (findSub cs sep).isSome
  let netloc := if hasSep then rest.takeWhile (fun c => ¬(c = '/' ∨ c = '?' ∨ c = '#')) else []
  let tail := if hasSep then rest.drop netloc.length else rest
  let (beforeFrag, frag) :=
    match findSub tail ['#'] with
    | some i => (tail.take i, tail.drop (i + 1))
    | none => (tail, [])
  let (path, query) :=
    match findSub beforeFrag ['?'] with
    | some i => (beforeFrag.take i, beforeFrag.drop (i + 1))
    | none => (beforeFrag, [])
  ⟨⟨scheme⟩, ⟨netloc⟩, ⟨path⟩, ⟨query⟩, ⟨frag⟩⟩

/-- Reconstruction, geturl, of a parse result whose query and fragment have
been replaced by the empty string, the normalization used throughout
crawler.py (process_url line 393, seed handling line 539, dork handling
line 564). -/
def geturlNoQueryFrag (u : UrlParts) : String :=
  if u.scheme = "" ∧ u.netloc = "" then u.path
  else u.scheme ++ "://" ++ u.netloc ++ u.path

/-- Normalized form of a URL: parse, drop query and fragment, rebuild. -/
def normalizeUrl (s : String) : String :=
  geturlNoQueryFrag (parseUrl s)

/-- Reconstruction keeping the query but dropping the fragment, the form
used by extract_links_from_html (strategies/recursive.py line 36). -/
def geturlNoFrag (u : UrlParts) : String :=
  (if u.scheme = "" ∧ u.netloc = "" then u.path
   else u.scheme ++ "://" ++ u.netloc ++ u.path) ++
  (if u.query = "" then "" else "?" ++ u.query)

/-- Embedding of urllib.parse.urljoin for the href shapes this development
feeds it: an href holding a scheme separator is already absolute, a
root-relative href is attached to the base's scheme and netloc, and a plain
relative href replaces the last path segment of the base. Dot segments do
not occur here. -/
def urljoinApprox (base href : String) : String :=
  if strContains href "://" then href
  else
    let b := parseUrl base
    if href.data.head? = some '/' then b.scheme ++ "://" ++ b.netloc ++ href
    else
      let dir := ((b.path.data.reverse.dropWhile (· ≠ '/')).reverse : List Char)
      b.scheme ++ "://" ++ b.netloc ++ (⟨dir⟩ : String) ++ href

/-- Insert a string into a list if absent, modelling Python set.add with
insertion-order iteration. -/
def insertAbsent (x : String) (xs : List String) : List String :=
  if xs.contains x then xs else xs ++ [x]

/-! ## core/file_identifier.py -/

/-- Output of identify_file_type_and_name. -/
structure FileMetadata where
  name : String
  extension : String
  mimeType : Option String
  deriving Repr, DecidableEq

/-- Modelled subset of the stdlib mimetypes extension-to-type map,
restricted to the extensions occurring in this development; the sql
extension is absent from the stdlib map and so from this one. -/
def mimetypesTypeOfExt : List (String × String) :=
  [("jpg", "image/jpeg"), ("jpeg", "image/jpeg"), ("html", "text/html"),
   ("txt", "text/plain"), ("xml", "text/xml")]

/-- Python pathlib suffix of a file name: the part from the last dot when
that dot is neither the first nor the last character, else empty. -/
def pathSuffix (name : List Char) : String :=
  let revIdx := name.reverse.findIdx? (· = '.')
  match revIdx with
  | none => ""
  | some r =>
      let i := name.length - 1 - r
      if 0 < i ∧ i < name.length - 1 then ⟨name.drop i⟩ else ""

/-- Last path segment, pathlib name. -/
def pathBaseName (path : List Char) : String :=
  ⟨(path.reverse.takeWhile (· ≠ '/')).reverse⟩

/-- mimetypes.guess_type applied to a URL: look up the URL path's
extension in the modelled table. -/
def mimetypesGuessType (url : String) : Option String :=
  let nm := (pathBaseName (parseUrl url).path.data).data
  let sfx := pathSuffix nm
  if sfx = "" then none
  else (mimetypesTypeOfExt.lookup (lowerStr ⟨sfx.data.drop 1⟩))

/-- Modelled subset of mimetypes.guess_extension for the MIME types
occurring in this development. -/
def mimetypesGuessExt : List (String × String) :=
  [("text/html", ".html"), ("text/plain", ".txt"), ("image/jpeg", ".jpg")]

/-- Python str.strip on spaces. -/
def trimSpaces (s : String) : String :=
  ⟨(s.data.dropWhile (· = ' ')).reverse.dropWhile (· = ' ') |>.reverse⟩

/-- Embedding of identify_file_type_and_name (core/file_identifier.py lines
16-85): name and extension come from the URL path; the MIME type prefers
the Content-Type header (up to the first semicolon, stripped and lowered)
and falls back to a guess from the extension; when the URL has no extension
and the MIME type is known and not the generic octet-stream, an extension is
synthesized from the MIME type and appended to the name. The commented-out
magic-number branch of the source has no counterpart. -/
def identifyFileTypeAndName (url : String) (contentTypeHeader : String) :
    FileMetadata :=
  let path := (parseUrl url).path
  let fileName := pathBaseName path.data
  let fileExtension := lowerStr ⟨(pathSuffix fileName.data).data.drop 1⟩
  let mimeFromHeader : Option String :=
    if contentTypeHeader = "" then none
    else
      let first := match findSub contentTypeHeader.data [';'] with
        | some i => contentTypeHeader.data.take i
        | none => contentTypeHeader.data
      some (lowerStr (trimSpaces ⟨first⟩))
  let mimeFromExtension := mimetypesGuessType url
  let finalMime := match mimeFromHeader with
    | some m => some m
    | none => mimeFromExtension
  match finalMime with
  | some m =>
    if fileExtension = "" ∧ m ≠ "application/octet-stream" then
      match mimetypesGuessExt.lookup m with
      | some guessed =>
        let ext := lowerStr ⟨guessed.data.dropWhile (· = '.')⟩
        let newName :=
          if pathSuffix fileName.data = "" ∧ ext ≠ "" then fileName ++ "." ++ ext
          else fileName
        ⟨newName, ext, some m⟩
      | none => ⟨fileName, fileExtension, some m⟩
    else ⟨fileName, fileExtension, some m⟩
  | none => ⟨fileName, fileExtension, none⟩

/-! ## FILE_TYPE_EXTENSIONS and the is_text_based expression

crawler.py lines 641-651 define FILE_TYPE_EXTENSIONS as a module-level
plain dict; line 430 reads it with attribute access. -/

/-- The FILE_TYPE_EXTENSIONS dict of crawler.py lines 641-651. -/
def fileTypeExtensionsDict : List (String × List String) :=
  [("text", ["txt", "log", "csv", "md", "rtf", "tsv", "ini", "conf", "cfg", "pem", "key"]),
   ("json", ["json", "jsonl", "geojson"]),
   ("database", ["sql", "db", "sqlite", "sqlite3", "mdb", "accdb", "dump"]),
   ("archive", ["zip", "tar", "gz", "bz2", "7z", "rar", "tgz"]),
   ("code", ["py", "js", "java", "c", "cpp", "cs", "php", "rb", "go", "html", "css", "sh", "ps1", "bat", "xml", "yaml", "yml"]),
   ("spreadsheet", ["xls", "xlsx", "ods"]),
   ("document", ["doc", "docx", "odt", "pdf", "ppt", "pptx", "odp"]),
   ("config", ["config", "conf", "cfg", "ini", "xml", "yaml", "yml", "env", "pem", "key", "crt"])]

/-- Embedding of the is_text_based expression at crawler.py line 430, which
evaluates the attribute accesses FILE_TYPE_EXTENSIONS.text, .json, .code
and .config on the plain dict, then asks whether the file extension lies in
any of the four lists. The first attribute access already raises. -/
def isTextBasedExpr (fileExtension : String) : Except PyError Bool := do
  let t ← pyDictAttr (List String) fileTypeExtensionsDict "text"
  let j ← pyDictAttr (List String) fileTypeExtensionsDict "json"
  let c ← pyDictAttr (List String) fileTypeExtensionsDict "code"
  let cf ← pyDictAttr (List String) fileTypeExtensionsDict "config"
  pure ([t, j, c, cf].any (fun extList => extList.contains (lowerStr fileExtension)))

/-! ## core/downloader.py -/

/-- Outcome of the streaming GET inside download_and_store_file: a
successful response delivering its body as byte chunks, a status error
raised by raise_for_status, or a request error; the last two are raised
before the output file is opened. -/
inductive DlResponse where
  | ok (chunks : List (List Nat))
  | statusError
  | requestError
  deriving Repr, DecidableEq

/-- Persistable record produced on success, the DownloadedFileSchema fields
the claims mention. -/
structure DownloadRecord where
  fileType : String
  keywordsFound : List String
  fileSizeBytes : Nat
  deriving Repr, DecidableEq

/-- Outcome of download_and_store_file: the record it returns, whether the
local file was created during the call, and whether it still exists on
return. -/
structure DlResult where
  record : Option DownloadRecord
  fileCreated : Bool
  fileOnDisk : Bool
  deriving Repr, DecidableEq

/-- Embedding of download_and_store_file (core/downloader.py lines 26-152).
Pre-fetched content is used when present and non-empty (the Python
truthiness test at line 63); otherwise the streaming GET runs, where
opening the output file happens only after raise_for_status, so a status
or request error leaves no file. A body of total size zero yields no
record, and the empty file created for it is removed before returning
(lines 126-133); the error handler at lines 145-152 likewise removes a
file with zero recorded size. Mid-write IO errors follow the same handler
and are not separately modelled. -/
def downloadAndStoreFile (meta : FileMetadata) (keywords : List String)
    (existing : Option (List Nat)) (response : DlResponse) : DlResult :=
  let usePrefetched := match existing with
    | some bs => decide (bs.length > 0)
    | none => false
  if usePrefetched then
    match existing with
    | some bs =>
        ⟨some ⟨meta.extension, keywords, bs.length⟩, true, true⟩
    | none => ⟨none, false, false⟩
  else
    match response with
    | .ok chunks =>
        let size := (chunks.map List.length).sum
        if size > 0 then ⟨some ⟨meta.extension, keywords, size⟩, true, true⟩
        else ⟨none, true, false⟩
    | .statusError => ⟨none, false, false⟩
    | .requestError => ⟨none, false, false⟩

/-- Parameter names of download_and_store_file as defined in
core/downloader.py lines 26-33; the call site in crawler.py line 451-456
passes six positional arguments and the keyword argument named proxies. -/
def downloadAndStoreFileParams : List String :=
  ["client", "file_url", "file_meta", "crawl_job_id",
   "keywords_found_triggering_download", "existing_content_bytes"]

/-! ## storage/crud.py module surface and the final-status logic -/

/-- The functions storage/crud.py defines, read from its def lines. The
name get_crawl_job_status_only that crawler.py lines 177 and 598 call is
not among them. -/
def crudModuleDefs : List String :=
  ["authenticate_user", "get_crawl_job", "get_crawl_jobs", "create_crawl_job",
   "update_crawl_job_status", "delete_crawl_job_and_get_file_paths",
   "get_downloaded_file", "get_downloaded_files", "get_downloaded_files_by_job",
   "create_downloaded_file", "delete_downloaded_file", "get_due_scheduled_jobs",
   "get_user", "get_user_by_email", "get_users", "create_user",
   "update_user_role", "update_user_status", "update_user_password",
   "delete_user_by_id", "get_user_preferences",
   "update_or_create_user_preferences", "create_default_user_preferences"]

/-- Python module attribute access: defined names resolve, any other name
raises AttributeError. -/
def pyModuleAttr (defs : List String) (name : String) : Except PyError Unit :=
  if defs.contains name then .ok () else .error (.attributeError "module" name)

/-- Embedding of the final-status block in the finally clause of
start_crawling (crawler.py lines 594-621). Its first statement resolves
crud.get_crawl_job_status_only; when that raises, the handler at line 619
swallows the exception and no status is written, so the persisted status
is returned unchanged. When the lookup would succeed, the block writes
failed for a stopped run, completed when files were yielded,
completed_empty otherwise, and leaves any other pre-existing status
untouched. -/
def finalizeCrawlStatus (dbStatus : String) (stopEventSet : Bool)
    (filesFoundCount : Nat) (initialUrlsFound : Bool) : String :=
  match pyModuleAttr crudModuleDefs "get_crawl_job_status_only" with
  | .error _ => dbStatus
  | .ok _ =>
    if dbStatus = "running" then
      if stopEventSet then "failed"
      else if filesFoundCount > 0 then "completed"
      else if initialUrlsFound then "completed_empty"
      else "completed_empty"
    else if dbStatus = "stopping" then "failed"
    else dbStatus

/-- Embedding of MasterCrawler._check_if_stopped (crawler.py lines
168-186): true immediately when the internal stop event is set; otherwise
an occasional poll (the five-percent random branch, here the pollFires
input) consults the persisted status through
crud.get_crawl_job_status_only, whose resolution raises AttributeError and
is swallowed, so the poll never observes anything. -/
def checkIfStopped (stopEventSet : Bool) (pollFires : Bool)
    (dbStatus : String) : Bool :=
  if stopEventSet then true
  else if pollFires then
    match pyModuleAttr crudModuleDefs "get_crawl_job_status_only" with
    | .error _ => false
    | .ok _ => dbStatus = "stopping"
  else false

/-- Embedding of MasterCrawler.stop_crawler (crawler.py lines 188-200):
sets the stop event, then attempts to persist the stopping status; the
write may fail, in which case the persisted status is unchanged. Returns
the pair of the new stop-event value and the new persisted status. -/
def stopCrawler (dbStatus : String) (writeSucceeds : Bool) :
    Bool × String :=
  (true, if writeSucceeds then "stopping" else dbStatus)

/-! ## Robots policy cache (crawler.py lines 214-258)

The HTTP layer is a parameter: for each domain base the environment fixes
the outcome of the robots.txt GET, and RobotFileParser.can_fetch is an
oracle over the parsed directive lines. -/

/-- Outcome of the robots.txt GET for a domain: a response with status code
and body text, or any raised failure (timeout, connection error, and so
on), which the code catches in one handler. -/
inductive RobotsFetchOutcome where
  | status (code : Nat) (body : String)
  | failure
  deriving Repr, DecidableEq

/-- Environment of the robots cache: the per-job respect flag, the fetch
outcome per domain base, and the can_fetch decision of a parser fed with
given directive lines. -/
structure RobotsEnv where
  respectRobotsTxt : Bool
  outcome : String → RobotsFetchOutcome
  canFetch : List String → String → String → Bool

/-- Python str.splitlines restricted to newline separators, the form the
robots parser receives. -/
def splitLinesStr (s : String) : List String :=
  s.splitOn "\n"

/-- Scheme-plus-host key under which robots policies are cached,
crawler.py line 216. -/
def domainBaseOf (url : String) : String :=
  let p := parseUrl url
  p.scheme ++ "://" ++ p.netloc

/-- Result of one _fetch_robots_txt_parser call: the parser it returns
(none both for the 404 sentinel and for uncached failures), the updated
cache, and how many robots.txt fetches the call performed. -/
structure RobotsFetchResult where
  parser : Option (List String)
  cache : List (String × Option (List String))
  fetchesPerformed : Nat
  deriving Repr, DecidableEq

/-- Embedding of _fetch_robots_txt_parser (crawler.py lines 214-246). A
cached entry for the scheme-plus-host key is returned without fetching;
otherwise the robots.txt is fetched once. In the HTTP 200 branch the
statement at line 232 reads the body with response.text(), a call on the
str property of the httpx response, which raises TypeError before the
parse at line 233; the catch-all at line 244 swallows it and returns none
without caching, so the parse-and-cache statements at lines 233-236 are
dead. HTTP 404 caches the permissive none sentinel, and any other status
or raised failure returns none without caching. -/
def fetchRobotsTxtParser (env : RobotsEnv)
    (cache : List (String × Option (List String))) (url : String) :
    RobotsFetchResult :=
  let base := domainBaseOf url
  match cache.lookup base with
  | some cached => ⟨cached, cache, 0⟩
  | none =>
    match env.outcome base with
    | .status code body =>
      if code = 200 then
        match pyStrCall body with
        | .error _ => ⟨none, cache, 1⟩
        | .ok content =>
          let parsed := splitLinesStr content
          ⟨some parsed, (base, some parsed) :: cache, 1⟩
      else if code = 404 then
        ⟨none, (base, none) :: cache, 1⟩
      else
        ⟨none, cache, 1⟩
    | .failure => ⟨none, cache, 1⟩

/-- Result of one is_allowed_by_robots call. -/
structure RobotsAllowResult where
  allowed : Bool
  cache : List (String × Option (List String))
  fetchesPerformed : Nat
  deriving Repr, DecidableEq

/-- Embedding of is_allowed_by_robots (crawler.py lines 248-258): when the
job does not respect robots.txt the answer is allowed with no fetch;
otherwise the parser is obtained through the cache, a missing parser means
allowed, and a present parser decides through can_fetch. -/
def isAllowedByRobots (env : RobotsEnv)
    (cache : List (String × Option (List String))) (url userAgent : String) :
    RobotsAllowResult :=
  if ¬env.respectRobotsTxt then ⟨true, cache, 0⟩
  else
    let r := fetchRobotsTxtParser env cache url
    match r.parser with
    | none => ⟨true, r.cache, r.fetchesPerformed⟩
    | some lines => ⟨env.canFetch lines userAgent url, r.cache, r.fetchesPerformed⟩

/-! ## Politeness limiter (crawler.py lines 39-71 and 202-212)

Clock readings of time.monotonic are embedded as rationals. The acquire
coroutine runs under the limiter's lock: it waits on the condition while
the concurrency cap is reached, then sleeps out the remaining delay while
still holding the lock, so the state it reads cannot change before it
records the new request start. An acquire attempt that must wait is
embedded as the none outcome; a completed acquire returns the recorded
request-start time, which is the current time pushed forward to at least
delay past the previous recorded start. -/

/-- State of one DomainLimiter: its per-job parameters and mutable
last-request-start time and outstanding-request count (the count is an
integer exactly as in the source, where release does not clamp at
zero). -/
structure DomainLimiter where
  delaySeconds : ℚ
  maxConcurrent : Nat
  lastRequestTime : ℚ
  activeRequests : ℤ
  deriving Repr, DecidableEq

/-- Fresh limiter as built by _get_domain_limiter: zero last-request time
and no outstanding requests. -/
def DomainLimiter.mk0 (delay : ℚ) (maxC : Nat) : DomainLimiter :=
  ⟨delay, maxC, 0, 0⟩

/-- Embedding of DomainLimiter.acquire at clock reading now: none when the
outstanding count has reached the cap (the caller waits on the condition);
otherwise the recorded request start is now, delayed to lastRequestTime
plus delaySeconds when that lies in the future, the count is incremented,
and the recorded start is returned. -/
def DomainLimiter.acquireAt (L : DomainLimiter) (now : ℚ) :
    Option (DomainLimiter × ℚ) :=
  if L.activeRequests ≥ (L.maxConcurrent : ℤ) then none
  else
    let start := max now (L.lastRequestTime + L.delaySeconds)
    some ({ L with lastRequestTime := start, activeRequests := L.activeRequests + 1 }, start)

/-- Embedding of DomainLimiter.release: decrement the outstanding count
(and notify one waiter of the condition, which has no state beyond the
count). -/
def DomainLimiter.release (L : DomainLimiter) : DomainLimiter :=
  { L with activeRequests := L.activeRequests - 1 }

/-- Domain key used by _get_domain_limiter (crawler.py lines 202-212): the
URL's netloc, with a shared fallback bucket for URLs without one. -/
def limiterKeyOf (url : String) : String :=
  let d := (parseUrl url).netloc
  if d = "" then "__no_domain__" else d

/-- The limiter registry is a dict keyed by domain, embedded as a partial
map; lookup creates a fresh limiter from the job settings on first use
(crawler.py lines 207-212). -/
def getDomainLimiter (limiters : String → Option DomainLimiter)
    (delay : ℚ) (maxC : Nat) (url : String) :
    DomainLimiter × (String → Option DomainLimiter) :=
  let key := limiterKeyOf url
  match limiters key with
  | some L => (L, limiters)
  | none =>
    let L := DomainLimiter.mk0 delay maxC
    (L, fun x => if x = key then some L else limiters x)

/-- Store an updated limiter back under its domain key. -/
def setDomainLimiter (limiters : String → Option DomainLimiter)
    (url : String) (L : DomainLimiter) : String → Option DomainLimiter :=
  fun x => if x = limiterKeyOf url then some L else limiters x

/-! ## Run-level semantics of process_url for the dedup and depth invariants

crawler.py lines 386-417 form the gate of process_url that runs before
fetch_page_content: stop check, parse and normalize, visited check and
atomic add (no await separates the membership test at line 398 from the
add at line 401, so under the single event loop no other task interleaves
between them), depth check, robots check, then the fetch. Lines 466-499
expand an HTML page: sitemap-derived page URLs re-enter process_url at the
incremented depth, and page links re-enter at the incremented depth only
when the current depth is strictly below the configured crawl depth.

A run is modelled as an arbitrary interleaving of such per-URL gate
executions over the shared visited set: each step may process any URL at
any depth under any momentary stop-flag value, which covers every order in
which seeds, dork results, page links and sitemap entries can reach
process_url. The fetch log records the normalized URL and depth of every
fetch_page_content call the gate issues. -/

/-- Static environment of a run: the configured crawl depth, and oracles
for the robots answer, for whether the fetch returns content, for whether
the content is HTML, and for the links and sitemap-derived page URLs an
HTML page contributes. -/
structure CrawlEnv where
  crawlDepth : Nat
  robotsAllowed : String → Bool
  fetchOk : String → Bool
  isHtml : String → Bool
  pageLinks : String → List String
  sitemapPageUrls : String → List String

/-- Shared mutable state the gates race on: the per-run visited set and
the log of issued fetches, newest first. -/
structure CrawlRunState where
  visited : List String
  fetched : List (String × Nat)
  deriving Repr, DecidableEq

/-- Initial state of a run. -/
def initialRunState : CrawlRunState := ⟨[], []⟩

/-- Frontier entries an HTML page contributes after a successful fetch:
pages named by its sitemaps at the incremented depth (crawler.py line
475), and its links at the incremented depth only when the current depth
is strictly below the crawl depth (lines 485-492). -/
def expandChildren (env : CrawlEnv) (url : String) (depth : Nat) :
    List (String × Nat) :=
  if env.isHtml url then
    (env.sitemapPageUrls url).map (fun u => (u, depth + 1)) ++
    (if depth < env.crawlDepth then (env.pageLinks url).map (fun u => (u, depth + 1)) else [])
  else []

/-- How one gate execution ended. -/
inductive GateOutcome where
  | stoppedEarly
  | alreadyVisited
  | depthSkip
  | robotsSkip
  | fetchNoContent
  | fetchedContent (children : List (String × Nat))
  deriving Repr, DecidableEq

/-- One execution of the process_url gate on a URL at a depth, under a
momentary stop-flag value, against the shared state; mirrors crawler.py
lines 386-417 in statement order and lines 466-499 for the contributed
children. -/
def processUrlStep (env : CrawlEnv) (stopped : Bool) (s : CrawlRunState)
    (url : String) (depth : Nat) : CrawlRunState × GateOutcome :=
  if stopped then (s, .stoppedEarly)
  else
    let nu := normalizeUrl url
    if nu ∈ s.visited then (s, .alreadyVisited)
    else
      let s1 : CrawlRunState := ⟨nu :: s.visited, s.fetched⟩
      if env.crawlDepth < depth then (s1, .depthSkip)
      else if ¬env.robotsAllowed url then (s1, .robotsSkip)
      else
        let s2 : CrawlRunState := ⟨s1.visited, (nu, depth) :: s1.fetched⟩
        if ¬env.fetchOk url then (s2, .fetchNoContent)
        else (s2, .fetchedContent (expandChildren env url depth))

/-- Interleaved executions: zero or more gate steps on arbitrary URLs,
depths and stop-flag values, starting from a given shared state. -/
inductive RunSteps (env : CrawlEnv) : CrawlRunState → CrawlRunState → Prop where
  | refl (s : CrawlRunState) : RunSteps env s s
  | tail (s t : CrawlRunState) (stopped : Bool) (url : String) (depth : Nat) :
      RunSteps env s t →
      RunSteps env s (processUrlStep env stopped t url depth).fst

/-- States a run can reach from the empty initial state. -/
def ReachableRun (env : CrawlEnv) (s : CrawlRunState) : Prop :=
  RunSteps env initialRunState s

/-- Invariant tying the fetch log to the visited set: every logged fetch
is of a visited normalized URL, no normalized URL is logged twice, and no
logged fetch exceeds the configured crawl depth. -/
def RunInv (env : CrawlEnv) (s : CrawlRunState) : Prop :=
  (∀ p ∈ s.fetched, p.1 ∈ s.visited) ∧
  (s.fetched.map Prod.fst).Nodup ∧
  (∀ p ∈ s.fetched, p.2 ≤ env.crawlDepth)

/-- Environment used by the concrete witnesses: crawl depth one, robots
always allowing, fetches succeeding, non-HTML content. -/
def envW : CrawlEnv :=
  ⟨1, fun _ => true, fun _ => true, fun _ => false, fun _ => [], fun _ => []⟩

/-- State reached after one gate execution on a seed URL. -/
def stateW : CrawlRunState :=
  (processUrlStep envW false initialRunState "http://a.b/x" 0).fst

/-! ## Concrete-run pipeline of MasterCrawler

An executable sequentialization of start_crawling, process_url,
_process_sitemap_and_its_urls and _fetch_and_parse_sitemap for evaluating
whole runs on concrete inputs. The HTTP layer and BeautifulSoup are
environment oracles: per URL, the fetch outcome (body text and lower-cased
content type, none for any classified fetch failure) and the anchor hrefs
and sitemap link-rel hrefs of the served HTML. Exceptions escaping a
process_url generator are returned alongside the state whose in-place
mutations survive them, exactly as the consuming loops observe; the
consuming loops append them to the caught-error log, mirroring the
handlers at crawler.py lines 483, 498 and 587. Recursion is bounded by an
explicit fuel that strictly dominates the recursion depth of the evaluated
scenarios. -/

/-- Environment of a concrete run. -/
structure PageEnv where
  stopRequested : Bool
  fetch : String → Option (String × String)
  anchors : String → List String
  linkRelSitemaps : String → List String
  robotsAllow : String → Bool
  sitemapEntries : String → List String

/-- Per-job settings fields the pipeline consumes, named after
CrawlSettingsSchema. -/
structure CrawlSettings where
  keywords : List String
  fileExtensions : List String
  seedUrls : List String
  searchDorks : List String
  crawlDepth : Nat
  respectRobotsTxt : Bool
  useSearchEngines : Bool

/-- Mutable state threaded through a run. -/
structure PipelineState where
  visited : List String
  processedSitemaps : List String
  found : List DownloadRecord
  caughtErrors : List PyError
  fetchLog : List String
  deriving Repr, DecidableEq

/-- Set insertion for the visited and processed-sitemap sets. -/
def addToSet (x : String) (xs : List String) : List String :=
  if x ∈ xs then xs else x :: xs

/-- Embedding of extract_links_from_html (strategies/recursive.py lines
8-45) over the anchor hrefs BeautifulSoup reports: empty, fragment-only,
mailto, tel and javascript hrefs are discarded, the rest resolve against
the base URL, only http and https results are kept, and the fragment is
stripped while the query is kept. -/
def extractLinksFromHtml (anchors : List String) (baseUrl : String) :
    List String :=
  anchors.foldl (fun acc href =>
    if href = "" ∨ strStarts href "#" ∨ strStarts (lowerStr href) "mailto:" ∨
        strStarts (lowerStr href) "tel:" ∨ strStarts (lowerStr href) "javascript:"
    then acc
    else
      let p := parseUrl (urljoinApprox baseUrl href)
      if p.scheme = "http" ∨ p.scheme = "https" then
        insertAbsent (geturlNoFrag p) acc
      else acc) []

/-- Embedding of _extract_sitemap_urls_from_html (crawler.py lines
304-325): hrefs of sitemap link-rel tags, anchor hrefs mentioning a
sitemap file name, and, when none were found, the four conventional
root-level guesses. -/
def extractSitemapUrlsFromHtml (linkRel anchors : List String)
    (baseUrl : String) : List String :=
  let s1 := linkRel.foldl (fun acc href =>
    if href ≠ "" then insertAbsent (urljoinApprox baseUrl href) acc else acc) []
  let s2 := anchors.foldl (fun acc href =>
    if href ≠ "" ∧ (strContains href "sitemap.xml" ∨
        strContains href "sitemap_index.xml" ∨ strContains href "sitemap.txt")
    then insertAbsent (urljoinApprox baseUrl href) acc else acc) s1
  if s2 = [] then
    let p := parseUrl baseUrl
    let db := p.scheme ++ "://" ++ p.netloc
    [urljoinApprox db "/sitemap.xml", urljoinApprox db "/sitemap_index.xml",
     urljoinApprox db "/sitemap.txt", urljoinApprox db "/sitemap.xml.gz"]
  else s2

mutual

/-- Embedding of process_url (crawler.py lines 386-499). The second result
component is the exception escaping the generator, if any: inside the
target-file branch the is_text_based expression of line 430 accesses
attributes of the FILE_TYPE_EXTENSIONS dict and its AttributeError leaves
process_url before the HTML-expansion section; the downloader invocation
of lines 451-456, which passes the keyword argument proxies that
download_and_store_file does not accept, sits inside the local handler of
line 464, so its TypeError is logged and processing continues. -/
def processUrlPipe (env : PageEnv) (cfg : CrawlSettings) :
    Nat → PipelineState → String → Nat → PipelineState × Option PyError
  | 0, s, _, _ => (s, none)
  | Nat.succ fuel, s, url, depth =>
    if env.stopRequested then (s, none)
    else
      let nu := normalizeUrl url
      if nu ∈ s.visited then (s, none)
      else
        let s1 := { s with visited := nu :: s.visited }
        if cfg.crawlDepth < depth then (s1, none)
        else if cfg.respectRobotsTxt ∧ ¬env.robotsAllow url then (s1, none)
        else
          match env.fetch url with
          | none => ({ s1 with fetchLog := url :: s1.fetchLog }, none)
          | some (body, ct) =>
            let s2 := { s1 with fetchLog := url :: s1.fetchLog }
            let meta := identifyFileTypeAndName url ct
            let targetExts := cfg.fileExtensions.map
              (fun e => lowerStr ⟨e.data.dropWhile (· = '.')⟩)
            let afterTarget : PipelineState × Option PyError :=
              if targetExts.contains (lowerStr meta.extension) then
                let kwFile := matchKeywordsInText meta.name cfg.keywords
                match isTextBasedExpr meta.extension with
                | .error e => (s2, some e)
                | .ok isTextBased =>
                  let kwContent :=
                    if isTextBased ∧ body.length < 2 * 1024 * 1024 then
                      matchKeywordsInText ⟨body.data.take 50000⟩ cfg.keywords
                    else []
                  let allKw := kwFile ++ kwContent.filter (fun k => k ∉ kwFile)
                  if allKw ≠ [] then
                    match pyKwargCallCheck downloadAndStoreFileParams ["proxies"] with
                    | .error e => ({ s2 with caughtErrors := e :: s2.caughtErrors }, none)
                    | .ok _ =>
                      let dl := downloadAndStoreFile meta allKw
                        (some (body.data.map Char.toNat)) (.ok [])
                      match dl.record with
                      | some r => ({ s2 with found := r :: s2.found }, none)
                      | none => (s2, none)
                  else (s2, none)
              else (s2, none)
            match afterTarget with
            | (s3, some e) => (s3, some e)
            | (s3, none) =>
              if strContains ct "text/html" then
                let sitemapUrls := extractSitemapUrlsFromHtml
                  (env.linkRelSitemaps url) (env.anchors url) url
                let tasks := sitemapUrls.filter
                  (fun sm => sm ∉ s3.processedSitemaps ∧ sm ∉ s3.visited)
                let s4 := tasks.foldl (fun st sm =>
                  let r := processSitemapPipe env cfg fuel st sm (depth + 1)
                  match r.2 with
                  | some e => { r.1 with caughtErrors := e :: r.1.caughtErrors }
                  | none => r.1) s3
                if depth < cfg.crawlDepth then
                  let links := extractLinksFromHtml (env.anchors url) url
                  let s5 := links.foldl (fun st l =>
                    if l ∈ st.visited then st
                    else
                      let r := processUrlPipe env cfg fuel st l (depth + 1)
                      match r.2 with
                      | some e => { r.1 with caughtErrors := e :: r.1.caughtErrors }
                      | none => r.1) s4
                  (s5, none)
                else (s4, none)
              else (s3, none)

/-- Embedding of _process_sitemap_and_its_urls together with
_fetch_and_parse_sitemap (crawler.py lines 501-519 and 327-383): the
sitemap URL is marked visited, resolved at most once per run through the
processed-sitemap set, fetched, and each resulting page URL not yet
visited is processed at the depth the caller passed (the referring page's
depth plus one). The gzip handling and the text and XML dispatch of the
fetched body are the sitemapEntries oracle of the environment. -/
def processSitemapPipe (env : PageEnv) (cfg : CrawlSettings) :
    Nat → PipelineState → String → Nat → PipelineState × Option PyError
  | 0, s, _, _ => (s, none)
  | Nat.succ fuel, s, smUrl, depth =>
    if env.stopRequested then (s, none)
    else
      let s1 := { s with visited := addToSet (normalizeUrl smUrl) s.visited }
      let fetched :=
        if smUrl ∈ s1.processedSitemaps then ([], s1)
        else
          let s2 := { s1 with processedSitemaps := smUrl :: s1.processedSitemaps }
          match env.fetch smUrl with
          | none => (([] : List String), { s2 with fetchLog := smUrl :: s2.fetchLog })
          | some _ => (env.sitemapEntries smUrl, { s2 with fetchLog := smUrl :: s2.fetchLog })
      let s3 := fetched.1.foldl (fun st u =>
        if u ∈ st.visited then st
        else
          let r := processUrlPipe env cfg fuel st u depth
          match r.2 with
          | some e => { r.1 with caughtErrors := e :: r.1.caughtErrors }
          | none => r.1) fetched.2
      (s3, none)

end

/-- Externally observable outcome of a run. -/
structure RunOutcome where
  found : List DownloadRecord
  finalStatus : String
  caughtErrors : List PyError
  fetchLog : List String
  initialUrlsFound : Bool
  deriving Repr, DecidableEq

/-- Embedding of start_crawling (crawler.py lines 522-628) for runs on
which stop_crawler is not invoked: the status is first written as running;
seed URLs are validated (http or https scheme, non-empty host) and
deduplicated into the initial set in their normalized form; when search is
enabled and dorks are configured, each dork's result URLs (supplied per
dork by the caller) are validated and deduplicated the same way; every
initial URL is processed at depth zero with exceptions of a processing
task logged; and the finally block then resolves the final status. -/
def startCrawlingPipe (env : PageEnv) (cfg : CrawlSettings)
    (dorkResults : List (List String)) (fuel : Nat) : RunOutcome :=
  let init0 := cfg.seedUrls.foldl (fun acc seed =>
    let p := parseUrl seed
    let normalized := normalizeUrl seed
    if (p.scheme = "http" ∨ p.scheme = "https") ∧ p.netloc ≠ "" ∧ normalized ∉ acc
    then acc ++ [normalized] else acc) []
  let initAll :=
    if cfg.useSearchEngines ∧ cfg.searchDorks ≠ [] then
      dorkResults.foldl (fun acc results =>
        results.foldl (fun acc2 du =>
          let p := parseUrl du
          let normalized := normalizeUrl du
          if (p.scheme = "http" ∨ p.scheme = "https") ∧ p.netloc ≠ "" ∧
              normalized ∉ acc2
          then acc2 ++ [normalized] else acc2) acc) init0
    else init0
  let sFinal := initAll.foldl (fun st u =>
    let r := processUrlPipe env cfg fuel st u 0
    match r.2 with
    | some e => { r.1 with caughtErrors := e :: r.1.caughtErrors }
    | none => r.1) ⟨[], [], [], [], []⟩
  let finalStatus := finalizeCrawlStatus "running" env.stopRequested
    sFinal.found.length (initAll ≠ [])
  ⟨sFinal.found, finalStatus, sFinal.caughtErrors, sFinal.fetchLog, initAll ≠ []⟩

/-! ## The end-to-end scenario of claim C1 -/

/-- Environment of the C1 scenario: one seed page whose HTML links to
report.sql and photo.jpg; the linked files are served with their natural
content types; every other fetch, in particular the guessed root sitemaps,
fails. -/
def c1Env : PageEnv where
  stopRequested := false
  fetch := fun u =>
    if u = "http://h.x/" then some ("page", "text/html")
    else if u = "http://h.x/report.sql" then some ("CREATE TABLE t;", "application/sql")
    else if u = "http://h.x/photo.jpg" then some ("jpegdata", "image/jpeg")
    else none
  anchors := fun u =>
    if u = "http://h.x/" then ["http://h.x/report.sql", "http://h.x/photo.jpg"]
    else []
  linkRelSitemaps := fun _ => []
  robotsAllow := fun _ => true
  sitemapEntries := fun _ => []

/-- Settings of the C1 scenario: keyword report, target extension sql,
one seed, depth one. -/
def c1Settings : CrawlSettings :=
  ⟨["report"], ["sql"], ["http://h.x/"], [], 1, false, false⟩

/-- The C1 scenario run. -/
def c1Run : RunOutcome := startCrawlingPipe c1Env c1Settings [] 5

/-- Robots environment used by the concrete witness: robots respected, a
404 for the robots.txt of the witness domain. -/
def robotsEnvW : RobotsEnv :=
  ⟨true, fun d => if d = "http://w.x" then .status 404 "not found" else .failure,
   fun _ _ _ => true⟩

/-- Robots environment whose witness domain answers HTTP 200 with a policy
disallowing everything; its can_fetch oracle denies every request, so any
allowed answer for this domain can only come from the parser never being
produced. -/
def robots200Env : RobotsEnv :=
  ⟨true,
   fun d => if d = "http://r.x" then .status 200 "User-agent: *\nDisallow: /"
            else .failure,
   fun _ _ _ => false⟩

/-- Limiter after the first acquire of the witness run. -/
def limiterW1 : DomainLimiter := ⟨1, 1, 1, 1⟩

/-- Environment of the C2 evaluation run: no fetch ever succeeds. -/
def c2Env : PageEnv :=
  ⟨false, fun _ => none, fun _ => [], fun _ => [], fun _ => true, fun _ => []⟩

/-- A run with no seed URLs and no dork results: the frontier is empty
from the start and the run exhausts naturally with zero records. -/
def c2Run : RunOutcome :=
  startCrawlingPipe c2Env ⟨["k"], ["sql"], [], [], 1, true, true⟩ [] 3

lemma runInv_initial (env : CrawlEnv) : RunInv env initialRunState := by
  refine ⟨?_, ?_, ?_⟩ <;> simp [initialRunState]

lemma processUrlStep_visited_mono (env : CrawlEnv) (stopped : Bool)
    (s : CrawlRunState) (url : String) (depth : Nat) :
    ∀ x ∈ s.visited, x ∈ (processUrlStep env stopped s url depth).fst.visited := by
  intro x hx
  unfold processUrlStep
  by_cases hstop : stopped
  · simpa [hstop] using hx
  · by_cases hvis : normalizeUrl url ∈ s.visited
    · simpa [hstop, hvis] using hx
    · by_cases hdep : env.crawlDepth < depth
      · simp [hstop, hvis, hdep, hx]
      · by_cases hrob : env.robotsAllowed url
        · by_cases hf : env.fetchOk url <;>
            simp [hstop, hvis, hdep, hrob, hf, hx]
        · simp [hstop, hvis, hdep, hrob, hx]

lemma processUrlStep_fetched_sub (env : CrawlEnv) (stopped : Bool)
    (s : CrawlRunState) (url : String) (depth : Nat) :
    ∀ p ∈ (processUrlStep env stopped s url depth).fst.fetched,
      p ∈ s.fetched ∨
      (p = (normalizeUrl url, depth) ∧ normalizeUrl url ∉ s.visited ∧
        depth ≤ env.crawlDepth) := by
  intro p hp
  unfold processUrlStep at hp
  by_cases hstop : stopped
  · simp [hstop] at hp; exact Or.inl hp
  · by_cases hvis : normalizeUrl url ∈ s.visited
    · simp [hstop, hvis] at hp; exact Or.inl hp
    · by_cases hdep : env.crawlDepth < depth
      · simp [hstop, hvis, hdep] at hp; exact Or.inl hp
      · by_cases hrob : env.robotsAllowed url
        · by_cases hf : env.fetchOk url
          · simp [hstop, hvis, hdep, hrob, hf] at hp
            rcases hp with hp | hp
            · exact Or.inr ⟨by simp [hp], hvis, Nat.le_of_not_lt hdep⟩
            · exact Or.inl hp
          · simp [hstop, hvis, hdep, hrob, hf] at hp
            rcases hp with hp | hp
            · exact Or.inr ⟨by simp [hp], hvis, Nat.le_of_not_lt hdep⟩
            · exact Or.inl hp
        · simp [hstop, hvis, hdep, hrob] at hp; exact Or.inl hp

lemma runInv_step (env : CrawlEnv) (stopped : Bool) (s : CrawlRunState)
    (url : String) (depth : Nat) (h : RunInv env s) :
    RunInv env (processUrlStep env stopped s url depth).fst := by
  obtain ⟨h1, h2, h3⟩ := h
  unfold processUrlStep
  by_cases hstop : stopped
  · simpa [hstop] using ⟨h1, h2, h3⟩
  · by_cases hvis : normalizeUrl url ∈ s.visited
    · simpa [hstop, hvis] using ⟨h1, h2, h3⟩
    · by_cases hdep : env.crawlDepth < depth
      · refine ⟨?_, ?_, ?_⟩ <;> simp [hstop, hvis, hdep]
        · exact fun a b hab => Or.inr (h1 (a, b) hab)
        · exact h2
        · exact fun a b hab => h3 (a, b) hab
      · by_cases hrob : env.robotsAllowed url
        · have hnotfetched : normalizeUrl url ∉ s.fetched.map Prod.fst := by
            intro hmem
            rcases List.mem_map.mp hmem with ⟨p, hp, hp1⟩
            exact hvis (hp1 ▸ h1 p hp)
          have hcore :
              RunInv env ⟨normalizeUrl url :: s.visited,
                (normalizeUrl url, depth) :: s.fetched⟩ := by
            refine ⟨?_, ?_, ?_⟩
            · intro p hp
              rcases List.mem_cons.mp hp with hp | hp
              · simp [hp]
              · exact List.mem_cons_of_mem _ (h1 p hp)
            · simp only [List.map_cons]
              exact List.nodup_cons.mpr ⟨hnotfetched, h2⟩
            · intro p hp
              rcases List.mem_cons.mp hp with hp | hp
              · simp [hp, Nat.le_of_not_lt hdep]
              · exact h3 p hp
          by_cases hf : env.fetchOk url <;>
            simpa [hstop, hvis, hdep, hrob, hf] using hcore
        · refine ⟨?_, ?_, ?_⟩ <;> simp [hstop, hvis, hdep, hrob]
          · exact fun a b hab => Or.inr (h1 (a, b) hab)
          · exact h2
          · exact fun a b hab => h3 (a, b) hab

lemma runInv_of_steps (env : CrawlEnv) (s t : CrawlRunState)
    (hst : RunSteps env s t) : RunInv env s → RunInv env t := by
  induction hst with
  | refl => exact id
  | tail _ _ _ _ _ ih =>
      intro hs
      exact runInv_step _ _ _ _ _ (ih hs)

lemma runInv_reachable (env : CrawlEnv) (s : CrawlRunState)
    (h : ReachableRun env s) : RunInv env s :=
  runInv_of_steps env initialRunState s h (runInv_initial env)

lemma processUrlStep_visited_skip (env : CrawlEnv) (stopped : Bool)
    (s : CrawlRunState) (url : String) (depth : Nat)
    (h : normalizeUrl url ∈ s.visited) :
    (processUrlStep env stopped s url depth).fst = s := by
  unfold processUrlStep
  by_cases hstop : stopped
  · simp [hstop]
  · simp [hstop, h]

lemma visited_unfetched_preserved (env : CrawlEnv) (u : String)
    (s t : CrawlRunState) (hst : RunSteps env s t) :
    u ∈ s.visited ∧ u ∉ s.fetched.map Prod.fst →
    u ∈ t.visited ∧ u ∉ t.fetched.map Prod.fst := by
  induction hst with
  | refl => exact id
  | tail t1 stopped url depth _ ih =>
      intro h
      obtain ⟨hv, hf⟩ := ih h
      refine ⟨processUrlStep_visited_mono env stopped t1 url depth u hv, ?_⟩
      intro hmem
      rcases List.mem_map.mp hmem with ⟨p, hp, hp1⟩
      rcases processUrlStep_fetched_sub env stopped t1 url depth p hp with
        hp2 | ⟨hpe, hnv, _⟩
      · exact hf (hp1 ▸ List.mem_map_of_mem Prod.fst hp2)
      · apply hnv
        have : p.1 = normalizeUrl url := by simp [hpe]
        rw [← this, hp1]
        exact hv

/-- Claim C4: within a single run every normalized URL is visited at most
once. Over every interleaved sequence of process_url gate executions the
fetch log never records the same normalized URL twice, and a gate
execution on a URL whose normalized form is already in the per-run visited
set returns with the shared state untouched, in particular without issuing
a fetch, regardless of how the URL was referenced. -/
theorem claim_C4_visited_at_most_once (env : CrawlEnv) (s : CrawlRunState)
    (h : ReachableRun env s) :
    (s.fetched.map Prod.fst).Nodup ∧
    ∀ stopped url depth, normalizeUrl url ∈ s.visited →
      (processUrlStep env stopped s url depth).fst = s := by
  refine ⟨(runInv_reachable env s h).2.1, ?_⟩
  intro stopped url depth hmem
  exact processUrlStep_visited_skip env stopped s url depth hmem

lemma stateW_reachable : ReachableRun envW stateW :=
  RunSteps.tail initialRunState initialRunState false "http://a.b/x" 0
    (RunSteps.refl initialRunState)

/-- Witness for claim C4 at a concrete reachable state. -/
theorem claim_C4_visited_at_most_once_witness :
    (stateW.fetched.map Prod.fst).Nodup ∧
    (processUrlStep envW true stateW "http://a.b/x" 0).fst = stateW :=
  ⟨(claim_C4_visited_at_most_once envW stateW stateW_reachable).1,
   (claim_C4_visited_at_most_once envW stateW stateW_reachable).2 true "http://a.b/x" 0
     (by decide)⟩

/-- Claim C5: no fetch is issued for a frontier URL whose depth exceeds
the configured crawl depth. In every reachable state each logged fetch has
depth at most the crawl depth, because the gate checks the depth before
fetching; an HTML page's children are contributed at the incremented
depth, and page links are contributed only when the current depth is
strictly below the crawl depth. -/
theorem claim_C5_depth_bound (env : CrawlEnv) (s : CrawlRunState)
    (h : ReachableRun env s) :
    (∀ p ∈ s.fetched, p.2 ≤ env.crawlDepth) ∧
    (∀ url depth, ∀ p ∈ expandChildren env url depth, p.2 = depth + 1) ∧
    (∀ url depth u, env.crawlDepth ≤ depth →
      (u, depth + 1) ∈ expandChildren env url depth →
      u ∈ env.sitemapPageUrls url) := by
  refine ⟨(runInv_reachable env s h).2.2, ?_, ?_⟩
  · intro url depth p hp
    unfold expandChildren at hp
    by_cases hh : env.isHtml url
    · simp [hh] at hp
      by_cases hd : depth < env.crawlDepth
      · simp [hd] at hp
        rcases hp with ⟨u, _, hu⟩ | ⟨u, _, hu⟩ <;> simp [← hu]
      · simp [hd] at hp
        rcases hp with ⟨u, _, hu⟩
        simp [← hu]
    · simp [hh] at hp
  · intro url depth u hle hp
    unfold expandChildren at hp
    by_cases hh : env.isHtml url
    · have hd : ¬depth < env.crawlDepth := Nat.not_lt.mpr hle
      simp [hh, hd] at hp
      exact hp
    · simp [hh] at hp

/-- Witness for claim C5 at a concrete reachable state. -/
theorem claim_C5_depth_bound_witness :
    (0 : Nat) ≤ envW.crawlDepth :=
  (claim_C5_depth_bound envW stateW stateW_reachable).1
    (normalizeUrl "http://a.b/x", 0) (by decide)

/-- Claim C10: the gate adds the normalized URL to the visited set before
checking the depth bound, so a URL first reaching process_url at a depth
beyond the crawl depth is marked visited without being fetched, and no
later gate execution in the run ever fetches it, even at an in-bound
depth. -/
theorem claim_C10_deep_first_discovery_blocks (env : CrawlEnv)
    (s : CrawlRunState) (h : ReachableRun env s) (url : String) (depth : Nat)
    (hdeep : env.crawlDepth < depth) (hnew : normalizeUrl url ∉ s.visited) :
    normalizeUrl url ∈ (processUrlStep env false s url depth).fst.visited ∧
    (processUrlStep env false s url depth).fst.fetched = s.fetched ∧
    ∀ t, RunSteps env (processUrlStep env false s url depth).fst t →
      normalizeUrl url ∉ t.fetched.map Prod.fst := by
  have hstep : (processUrlStep env false s url depth).fst =
      ⟨normalizeUrl url :: s.visited, s.fetched⟩ := by
    unfold processUrlStep
    simp [hnew, hdeep]
  have hbase : normalizeUrl url ∉ s.fetched.map Prod.fst := by
    intro hmem
    rcases List.mem_map.mp hmem with ⟨p, hp, hp1⟩
    exact hnew (hp1 ▸ (runInv_reachable env s h).1 p hp)
  refine ⟨?_, ?_, ?_⟩
  · rw [hstep]; exact List.mem_cons_self _ _
  · rw [hstep]
  · intro t ht
    refine (visited_unfetched_preserved env (normalizeUrl url) _ t ht ?_).2
    rw [hstep]
    exact ⟨List.mem_cons_self _ _, hbase⟩

/-- Claim C1: evaluation of the end-to-end scenario. The seed page is
fetched and so is report.sql, whose extension sql is a configured target
and whose filename matches the keyword report, yet the run yields no
record at all: evaluating the is_text_based expression of crawler.py line
430 raises AttributeError on the FILE_TYPE_EXTENSIONS dict, the exception
leaves the generator before the downloader is reached, and the final
status stays running because the finally block of start_crawling dies on
the undefined crud.get_crawl_job_status_only. -/
theorem claim_C1_end_to_end_scenario :
    c1Run.found = [] ∧
    c1Run.finalStatus = "running" ∧
    c1Run.caughtErrors = [.attributeError "dict" "text"] ∧
    "http://h.x/report.sql" ∈ c1Run.fetchLog ∧
    identifyFileTypeAndName "http://h.x/report.sql" "application/sql" =
      ⟨"report.sql", "sql", some "application/sql"⟩ ∧
    matchKeywordsInText "report.sql" ["report"] = ["report"] ∧
    isTextBasedExpr "sql" = .error (.attributeError "dict" "text") :=
  ⟨by decide, by decide, by decide, by decide, by decide, by decide, rfl⟩

/-- Claim C7: keyword matching is case-insensitive and whole-word with
word-boundary semantics and preserves the original casing of matched
keywords. On the first sample text exactly password and NIK match, the
latter both as lower-case nik and as NIK-123 across a word boundary, and
NIK does not match inside Nonikname. -/
theorem claim_C7_keyword_matching :
    matchKeywordsInText
      "This is a test for Password and nik values. Also NIK-123."
      ["password", "NIK", "secret", "ktp"] = ["password", "NIK"] ∧
    matchKeywordsInText "Nonikname" ["NIK"] = [] := by decide

/-- Claim C8: a successful retrieval with a zero-byte body produces no
record and leaves no file on disk; the empty file created while streaming
is removed before returning. -/
theorem claim_C8_zero_byte_download (meta : FileMetadata)
    (kws : List String) (existing : Option (List Nat))
    (chunks : List (List Nat)) (hex : existing = none ∨ existing = some [])
    (hz : (chunks.map List.length).sum = 0) :
    downloadAndStoreFile meta kws existing (.ok chunks) = ⟨none, true, false⟩ := by
  rcases hex with h | h <;> subst h <;>
    simp [downloadAndStoreFile, hz]

/-- Witness for claim C8 on a concrete zero-byte retrieval. -/
theorem claim_C8_zero_byte_download_witness :
    downloadAndStoreFile ⟨"report.sql", "sql", some "application/sql"⟩
      ["report"] none (.ok []) = ⟨none, true, false⟩ :=
  claim_C8_zero_byte_download ⟨"report.sql", "sql", some "application/sql"⟩
    ["report"] none [] (Or.inl rfl) (by decide)

/-- Claim C6, evaluated at a failing input: the HTTP 200 branch never
parses or caches. The robots.txt of the 200 domain disallows everything
and the can_fetch oracle denies every request, yet the fetch leaves the
cache empty and returns no parser and the query is answered allowed,
because line 232 calls the str property of the httpx response and the
TypeError lands in the catch-all at line 244; the cache staying empty
makes every later query for that domain fetch again. The other branches
behave as the claim states: the 404 sentinel is cached and the follow-up
query is allowed without a fetch, and with the respect flag off the answer
is allowed with no fetch. -/
theorem claim_C6_robots_200_never_cached :
    fetchRobotsTxtParser robots200Env [] "http://r.x/private/x" =
      ⟨none, [], 1⟩ ∧
    isAllowedByRobots robots200Env [] "http://r.x/private/x" "agent" =
      ⟨true, [], 1⟩ ∧
    robots200Env.canFetch ["User-agent: *", "Disallow: /"] "agent"
      "http://r.x/private/x" = false ∧
    pyStrCall "User-agent: *\nDisallow: /" =
      .error (.typeError "str object is not callable") ∧
    fetchRobotsTxtParser robotsEnvW [] "http://w.x/private/a" =
      ⟨none, [("http://w.x", none)], 1⟩ ∧
    isAllowedByRobots robotsEnvW [("http://w.x", none)] "http://w.x/private/a"
      "agent" = ⟨true, [("http://w.x", none)], 0⟩ ∧
    isAllowedByRobots ⟨false, robots200Env.outcome, robots200Env.canFetch⟩ []
      "http://r.x/private/x" "agent" = ⟨true, [], 0⟩ :=
  ⟨by decide, by decide, by decide, rfl, by decide, by decide, by decide⟩

/-- Claim C9: acquire completes only when the outstanding count is below
the cap, and it completes at a recorded start time no earlier than the
request time and at least the delay after the previous recorded start,
incrementing the count; release decrements the count, re-opening the cap
for one waiter; and updating the limiter of one domain leaves the stored
limiter of every other domain untouched. -/
theorem claim_C9_politeness_limiter (L : DomainLimiter) (now : ℚ)
    (limiters : String → Option DomainLimiter) (url u2 : String)
    (L2 : DomainLimiter) :
    (L.activeRequests ≥ (L.maxConcurrent : ℤ) → L.acquireAt now = none) ∧
    (∀ L1 t, L.acquireAt now = some (L1, t) →
      L.activeRequests < (L.maxConcurrent : ℤ) ∧
      L.lastRequestTime + L.delaySeconds ≤ t ∧ now ≤ t ∧
      L1.lastRequestTime = t ∧ L1.activeRequests = L.activeRequests + 1 ∧
      L1.delaySeconds = L.delaySeconds ∧ L1.maxConcurrent = L.maxConcurrent) ∧
    (L.release.activeRequests = L.activeRequests - 1) ∧
    (L.activeRequests ≤ (L.maxConcurrent : ℤ) →
      L.release.activeRequests < (L.maxConcurrent : ℤ)) ∧
    (limiterKeyOf url ≠ limiterKeyOf u2 →
      setDomainLimiter limiters url L2 (limiterKeyOf u2) =
        limiters (limiterKeyOf u2)) := by
  refine ⟨?_, ?_, ?_, ?_, ?_⟩
  · intro hge
    simp [DomainLimiter.acquireAt, hge]
  · intro L1 t hacq
    unfold DomainLimiter.acquireAt at hacq
    by_cases hge : L.activeRequests ≥ (L.maxConcurrent : ℤ)
    · simp [hge] at hacq
    · simp [hge] at hacq
      obtain ⟨hL1, ht⟩ := hacq
      subst ht
      refine ⟨lt_of_not_ge hge, le_max_right _ _, le_max_left _ _, ?_, ?_, ?_, ?_⟩ <;>
        simp [← hL1]
  · simp [DomainLimiter.release]
  · intro hle
    simp only [DomainLimiter.release]
    omega
  · intro hne
    simp [setDomainLimiter, Ne.symm hne]

/-- Witness for claim C9 on a concrete limiter with delay one and cap one,
acquired at clock reading zero. -/
theorem claim_C9_politeness_limiter_witness :
    (DomainLimiter.mk0 1 1).activeRequests <
      ((DomainLimiter.mk0 1 1).maxConcurrent : ℤ) ∧
    (DomainLimiter.mk0 1 1).lastRequestTime +
      (DomainLimiter.mk0 1 1).delaySeconds ≤ 1 ∧ (0 : ℚ) ≤ 1 ∧
    limiterW1.lastRequestTime = 1 ∧
    limiterW1.activeRequests = (DomainLimiter.mk0 1 1).activeRequests + 1 ∧
    limiterW1.delaySeconds = (DomainLimiter.mk0 1 1).delaySeconds ∧
    limiterW1.maxConcurrent = (DomainLimiter.mk0 1 1).maxConcurrent :=
  (claim_C9_politeness_limiter (DomainLimiter.mk0 1 1) 0 (fun _ => none)
      "http://a.b/x" "http://c.d/y" limiterW1).2.1 limiterW1 1
    (by norm_num [DomainLimiter.acquireAt, DomainLimiter.mk0, limiterW1])

/-- Claim C2: the final-status block of start_crawling never writes the
completed or completed_empty status, because its first statement resolves
the undefined crud.get_crawl_job_status_only and the resulting
AttributeError is swallowed by the handler around the block; a naturally
exhausted run therefore keeps the running status whether or not it
yielded records, as the evaluated empty-frontier run shows. -/
theorem claim_C2_final_status_never_written :
    pyModuleAttr crudModuleDefs "get_crawl_job_status_only" =
      .error (.attributeError "module" "get_crawl_job_status_only") ∧
    finalizeCrawlStatus "running" false 0 false = "running" ∧
    finalizeCrawlStatus "running" false 0 true = "running" ∧
    finalizeCrawlStatus "running" false 3 true = "running" ∧
    finalizeCrawlStatus "running" false 0 false ≠ "completed_empty" ∧
    finalizeCrawlStatus "running" false 3 true ≠ "completed" ∧
    c2Run.found = [] ∧ c2Run.initialUrlsFound = false ∧
    c2Run.finalStatus = "running" :=
  ⟨rfl, rfl, rfl, rfl, by decide, by decide, by decide, by decide, by decide⟩

/-- Claim C3: a stop request on the run handle is observed at the next
check and per-URL processing then returns before fetching, but the
terminal status is not failed: the stopping status written by stop_crawler
persists because the final-status block dies on the undefined
crud.get_crawl_job_status_only lookup, and when even the stopping write
failed the job stays running. -/
theorem claim_C3_stop_observed_but_status_not_failed :
    checkIfStopped true false "running" = true ∧
    (processUrlStep envW true stateW "http://a.b/z" 0).fst.fetched =
      stateW.fetched ∧
    stopCrawler "running" true = (true, "stopping") ∧
    finalizeCrawlStatus "stopping" true 2 true = "stopping" ∧
    finalizeCrawlStatus "stopping" true 2 true ≠ "failed" ∧
    finalizeCrawlStatus "running" true 2 true = "running" := by decide

/-- Witness for claim C10 at a concrete state and URL. -/
theorem claim_C10_deep_first_discovery_blocks_witness :
    normalizeUrl "http://a.b/y" ∈
      (processUrlStep envW false stateW "http://a.b/y" 2).fst.visited ∧
    (processUrlStep envW false stateW "http://a.b/y" 2).fst.fetched = stateW.fetched ∧
    normalizeUrl "http://a.b/y" ∉
      ((processUrlStep envW false stateW "http://a.b/y" 2).fst.fetched.map Prod.fst) := by
  have h := claim_C10_deep_first_discovery_blocks envW stateW stateW_reachable
    "http://a.b/y" 2 (by decide) (by decide)
  exact ⟨h.1, h.2.1, h.2.2 _ (RunSteps.refl _)⟩



end BreachWatch
